import Mathlib

/-!
Verification of the pixelated-title-card effect (`src/script.js`).

The repository is a single JavaScript module: a `PixelatedTextEffect` class
that rasterizes text to a canvas texture, distorts it in a GLSL fragment
shader driven by smoothed pointer state, plus a DOM helper
`applyPixelatedTextTo`.  We embed the pure computations over `ℚ`
(JavaScript/GLSL floats idealized as exact rationals), the event handlers
and animation tick as pure state transitions, and the effectful bodies of
`onWindowResize`, `addEventListeners`, `destroy` and `applyPixelatedTextTo`
as explicit traces of the operations they perform.  GLSL `length` involves
an irrational square root, so the shader embedding is parameterized by the
length function; every property proved about the shader holds for an
arbitrary such function.
-/

namespace PixelatedTitleCard

/-- A two-component vector, as GLSL `vec2` / JS `{x, y}` pairs. -/
structure Vec2 where
  x : ℚ
  y : ℚ
deriving DecidableEq

instance : Add Vec2 := ⟨fun a b => ⟨a.x + b.x, a.y + b.y⟩⟩
instance : Sub Vec2 := ⟨fun a b => ⟨a.x - b.x, a.y - b.y⟩⟩

theorem Vec2.ext_iff {a b : Vec2} : a = b ↔ a.x = b.x ∧ a.y = b.y := by
  cases a; cases b; simp

@[simp] theorem Vec2.add_def (a b : Vec2) : a + b = ⟨a.x + b.x, a.y + b.y⟩ := rfl

@[simp] theorem Vec2.sub_def (a b : Vec2) : a - b = ⟨a.x - b.x, a.y - b.y⟩ := rfl

/-- GLSL unary minus on a `vec2`. -/
def Vec2.neg (v : Vec2) : Vec2 := ⟨-v.x, -v.y⟩

/-- GLSL scalar-times-vector product `c * v` (componentwise). -/
def Vec2.smul (c : ℚ) (v : Vec2) : Vec2 := ⟨c * v.x, c * v.y⟩

/-- GLSL vector-times-scalar product `v * c` (componentwise). -/
def Vec2.mulScalar (v : Vec2) (c : ℚ) : Vec2 := ⟨v.x * c, v.y * c⟩

/-- GLSL `floor`, componentwise ingredient: the floor of a rational as a rational. -/
def qfloor (q : ℚ) : ℚ := (⌊q⌋ : ℚ)

/-- GLSL `clamp(x, lo, hi) = min(max(x, lo), hi)`. -/
def clamp (x lo hi : ℚ) : ℚ := min (max x lo) hi

/-- GLSL `smoothstep(edge0, edge1, x)`:
Hermite interpolation `t*t*(3 - 2*t)` of `t = clamp((x-edge0)/(edge1-edge0), 0, 1)`. -/
def smoothstep (edge0 edge1 x : ℚ) : ℚ :=
  let t := clamp ((x - edge0) / (edge1 - edge0)) 0 1
  t * t * (3 - 2 * t)

/-- The fragment shader of `src/script.js` (lines 177–212), line by line.
`len` abstracts GLSL `length` (a square root, irrational in general);
`tex` abstracts `texture2D u_texture` into an arbitrary sampling function. -/
def fragmentShader {Color : Type} (len : Vec2 → ℚ) (tex : Vec2 → Color)
    (u_mouse u_prevMouse vUv : Vec2) : Color :=
  let gridUV : Vec2 := ⟨qfloor (vUv.x * 40) / 40, qfloor (vUv.y * 40) / 40⟩
  let centerOfPixel : Vec2 := gridUV + ⟨1/40, 1/40⟩
  let mouseDirection : Vec2 := u_mouse - u_prevMouse
  let pixelToMouseDirection : Vec2 := centerOfPixel - u_mouse
  let pixelDistanceToMouse : ℚ := len pixelToMouseDirection
  let strength : ℚ := smoothstep (3/10) 0 pixelDistanceToMouse
  let uvOffset : Vec2 := Vec2.mulScalar (Vec2.smul strength (Vec2.neg mouseDirection)) (4/10)
  let uv : Vec2 := vUv - uvOffset
  tex uv

/-- The spec's step 1: `gridCoord = floor(uv * 40) / 40`. -/
def spec_gridCoord (uv : Vec2) : Vec2 := ⟨qfloor (uv.x * 40) / 40, qfloor (uv.y * 40) / 40⟩

/-- The spec's step 2: `center = gridCoord + (1/40, 1/40)`. -/
def spec_center (uv : Vec2) : Vec2 := spec_gridCoord uv + ⟨1/40, 1/40⟩

/-- The spec's step 5: `strength = smoothstep(0.3, 0.0, length(center - mouse))`. -/
def spec_strength (len : Vec2 → ℚ) (uv mouse : Vec2) : ℚ :=
  smoothstep (3/10) 0 (len (spec_center uv - mouse))

/-- The spec's step 6: `offset = strength * -(mouse - prevMouse) * 0.4`. -/
def spec_offset (len : Vec2 → ℚ) (uv mouse prevMouse : Vec2) : Vec2 :=
  Vec2.mulScalar (Vec2.smul (spec_strength len uv mouse) (Vec2.neg (mouse - prevMouse))) (4/10)

/-- The per-instance pointer state of `PixelatedTextEffect`:
`easeFactor`, `mousePosition` (current), `targetMousePosition`, `prevPosition`. -/
structure EffectState where
  easeFactor : ℚ
  mousePosition : Vec2
  targetMousePosition : Vec2
  prevPosition : Vec2
deriving DecidableEq

/-- The constructor's initial pointer state (`src/script.js` lines 45–48):
ease 0.02, all positions `(0.5, 0.5)`. -/
def initState : EffectState :=
  { easeFactor := 2/100
    mousePosition := ⟨1/2, 1/2⟩
    targetMousePosition := ⟨1/2, 1/2⟩
    prevPosition := ⟨1/2, 1/2⟩ }

/-- The container's bounding client rect, as used to normalize event coordinates. -/
structure Rect where
  left : ℚ
  top : ℚ
  width : ℚ
  height : ℚ

/-- `handleMouseMove` (lines 266–272): ease to 0.035, copy the old target into
`prevPosition`, write the normalized event coordinate into the target. -/
def handleMouseMove (s : EffectState) (rect : Rect) (clientX clientY : ℚ) : EffectState :=
  { s with
    easeFactor := 35/1000
    prevPosition := s.targetMousePosition
    targetMousePosition :=
      ⟨(clientX - rect.left) / rect.width, (clientY - rect.top) / rect.height⟩ }

/-- `handleMouseEnter` (lines 282–289): ease to 0.01, snap both the current
and the target position to the normalized entry coordinate. -/
def handleMouseEnter (s : EffectState) (rect : Rect) (clientX clientY : ℚ) : EffectState :=
  let x := (clientX - rect.left) / rect.width
  let y := (clientY - rect.top) / rect.height
  { s with
    easeFactor := 1/100
    mousePosition := ⟨x, y⟩
    targetMousePosition := ⟨x, y⟩ }

/-- `handleMouseLeave` (lines 297–300): ease to 0.01, reset the target to the
recorded previous position. -/
def handleMouseLeave (s : EffectState) : EffectState :=
  { s with
    easeFactor := 1/100
    targetMousePosition := s.prevPosition }

/-- The shader's two mouse uniforms. -/
structure Uniforms where
  u_mouse : Vec2
  u_prevMouse : Vec2
deriving DecidableEq

/-- One tick of `animate` (lines 328–346), minus the draw call: ease each axis
of the current position toward the target, then write the Y-flipped current
and previous positions into the mouse uniforms. -/
def animateTick (s : EffectState) : EffectState × Uniforms :=
  let mp : Vec2 :=
    ⟨s.mousePosition.x + (s.targetMousePosition.x - s.mousePosition.x) * s.easeFactor,
     s.mousePosition.y + (s.targetMousePosition.y - s.mousePosition.y) * s.easeFactor⟩
  ({ s with mousePosition := mp },
   { u_mouse := ⟨mp.x, 1 - mp.y⟩
     u_prevMouse := ⟨s.prevPosition.x, 1 - s.prevPosition.y⟩ })

/-- A unit rect (left 0, top 0, width 1, height 1), so client coordinates are
already normalized. -/
def rect01 : Rect := ⟨0, 0, 1, 1⟩

/-- The pure layout computation of `createTextTexture` (lines 74–127):
canvas dimensions, font size, horizontal scale factor, aspect correction and
the vertical scale passed to `ctx.setTransform`.  The measured text width is
an input, since `ctx.measureText` is executed by the host canvas. -/
structure TextLayout where
  canvasWidth : ℚ
  canvasHeight : ℚ
  fontSize : ℤ
  scaleFactor : ℚ
  aspectCorrection : ℚ
  verticalScale : ℚ
deriving DecidableEq

/-- `createTextTexture`'s arithmetic, from `window.innerWidth`,
`window.innerHeight` and the measured text width. -/
def createTextTexture (innerWidth innerHeight textWidth : ℚ) : TextLayout :=
  let canvasWidth := innerWidth * 2
  let canvasHeight := innerHeight * 2
  let fontSize := ⌊canvasWidth * 2⌋
  let scaleFactor := min 1 (canvasWidth * 1 / textWidth)
  let aspectCorrection := canvasWidth / canvasHeight
  { canvasWidth := canvasWidth
    canvasHeight := canvasHeight
    fontSize := fontSize
    scaleFactor := scaleFactor
    aspectCorrection := aspectCorrection
    verticalScale := scaleFactor / aspectCorrection }

/-- The observable operations performed by `onWindowResize`. -/
inductive ResizeAction where
  | updateProjection (left right top bottom : ℚ)
  | setRendererSize (w h : ℚ)
  | regenerateTexture (w h : ℚ)
deriving DecidableEq

/-- `onWindowResize` (lines 308–318) as the trace of operations it performs:
set the four orthographic camera bounds and update the projection matrix,
resize the renderer, regenerate the text texture (whose bitmap is the
`2×`-scaled viewport, per `createTextTexture`). -/
def onWindowResize (innerWidth innerHeight : ℚ) : List ResizeAction :=
  let aspect := innerWidth / innerHeight
  [ResizeAction.updateProjection (-1) 1 (1 / aspect) (-(1 / aspect)),
   ResizeAction.setRendererSize innerWidth innerHeight,
   ResizeAction.regenerateTexture (innerWidth * 2) (innerHeight * 2)]

/-- Recognizes a texture-regeneration action. -/
def isRegenerate : ResizeAction → Bool
  | ResizeAction.regenerateTexture _ _ => true
  | _ => false

/-- Recognizes a projection-bounds update. -/
def isProjectionUpdate : ResizeAction → Bool
  | ResizeAction.updateProjection _ _ _ _ => true
  | _ => false

/-- The four listener registrations of `addEventListeners` (lines 251–256). -/
inductive ListenerKind where
  | mousemove
  | mouseenter
  | mouseleave
  | resize
deriving DecidableEq

/-- `addEventListeners` registers exactly these listeners, in this order. -/
def addEventListeners : List ListenerKind :=
  [ListenerKind.mousemove, ListenerKind.mouseenter, ListenerKind.mouseleave,
   ListenerKind.resize]

/-- The observable operations performed by `destroy`. -/
inductive DestroyAction where
  | cancelFrame
  | removeListener (k : ListenerKind)
  | removeChildCanvas
  | disposeRenderer
deriving DecidableEq

/-- `destroy` (lines 355–363) as the trace of operations it performs:
cancel the scheduled animation frame, remove the four listeners, remove the
renderer's canvas from the container, dispose the renderer. -/
def destroy : List DestroyAction :=
  [DestroyAction.cancelFrame,
   DestroyAction.removeListener ListenerKind.mousemove,
   DestroyAction.removeListener ListenerKind.mouseenter,
   DestroyAction.removeListener ListenerKind.mouseleave,
   DestroyAction.removeListener ListenerKind.resize,
   DestroyAction.removeChildCanvas,
   DestroyAction.disposeRenderer]

/-- The overlay div created by `applyPixelatedTextTo` (lines 389–402). -/
structure Overlay where
  className : String
  stylePosition : String
  styleInset : String
  styleZIndex : Nat
  stylePointerEvents : String
deriving DecidableEq

/-- A DOM element as `applyPixelatedTextTo` observes and mutates it:
its text content, its computed `position` style, and its appended overlays. -/
structure DomElement where
  textContent : String
  position : String
  children : List Overlay
deriving DecidableEq

/-- The option bag accepted by `applyPixelatedTextTo` and spread into the
`PixelatedTextEffect` constructor options. -/
structure EffectOptions where
  text : Option String
  font : Option String
  color : Option String
  fontWeight : Option String

/-- A constructed `PixelatedTextEffect` handle: its container, resolved
constructor options (lines 32–48) and initial pointer state. -/
structure EffectHandle where
  container : Overlay
  text : String
  font : String
  color : String
  fontWeight : String
  state : EffectState
deriving DecidableEq

/-- The `PixelatedTextEffect` constructor, applied to
`{container: overlay, text, ...options}`: an option-bag field overrides the
extracted text, missing fields take the constructor defaults. -/
def newEffect (container : Overlay) (text : String) (opts : EffectOptions) : EffectHandle :=
  { container := container
    text := opts.text.getD text
    font := opts.font.getD "Rinter"
    color := opts.color.getD "#ffffff"
    fontWeight := opts.fontWeight.getD "100"
    state := initState }

/-- `applyPixelatedTextTo` (lines 381–418).  The document is abstracted as
the result of `document.querySelector`; the result is the returned handle,
the mutated target element, and the warnings logged. -/
def applyPixelatedTextTo (doc : String → Option DomElement) (selector : String)
    (opts : EffectOptions) : Option EffectHandle × Option DomElement × List String :=
  match doc selector with
  | none => (none, none, ["Element not found for selector: " ++ selector])
  | some el =>
      let text := el.textContent.trim
      let overlay : Overlay :=
        { className := "pixelated-overlay"
          stylePosition := "absolute"
          styleInset := "0"
          styleZIndex := 1
          stylePointerEvents := "none" }
      let el1 : DomElement :=
        if el.position = "static" then { el with position := "relative" } else el
      let el2 : DomElement := { el1 with children := el1.children ++ [overlay] }
      (some (newEffect overlay text opts), some el2, [])

end PixelatedTitleCard

namespace PixelatedTitleCard

/-- C1: For every input coordinate `uv` in `[0,1]×[0,1]`, every pair of mouse
uniforms, every length function and every texture, the fragment shader emits
the color of the texture sampled at `uv - offset`, where `offset` is the
spec's `strength × -(mouse - prevMouse) × 0.4` with `strength` the
smoothstep of the distance from the block center to the mouse. -/
theorem fragmentShader_samples_at_offset_uv {Color : Type}
    (len : Vec2 → ℚ) (tex : Vec2 → Color) (u_mouse u_prevMouse uv : Vec2)
    (h : 0 ≤ uv.x ∧ uv.x ≤ 1 ∧ 0 ≤ uv.y ∧ uv.y ≤ 1) :
    fragmentShader len tex u_mouse u_prevMouse uv =
      tex (uv - spec_offset len uv u_mouse u_prevMouse) := rfl

/-- Witness for C1, at `uv = (1/2, 1/2)`, `mouse = (0,0)`, `prevMouse = (1,0)`. -/
theorem fragmentShader_samples_at_offset_uv_witness :
    fragmentShader (fun _ => 0) (fun v : Vec2 => v) ⟨0, 0⟩ ⟨1, 0⟩ ⟨1/2, 1/2⟩ =
      (fun v : Vec2 => v) (⟨1/2, 1/2⟩ - spec_offset (fun _ => 0) ⟨1/2, 1/2⟩ ⟨0, 0⟩ ⟨1, 0⟩) :=
  fragmentShader_samples_at_offset_uv (fun _ => 0) (fun v : Vec2 => v) ⟨0, 0⟩ ⟨1, 0⟩ ⟨1/2, 1/2⟩
    (by norm_num)

/-- C10: Whenever the mouse uniform equals the previous-mouse uniform, the
shader's offset is the zero vector and the emitted color is the texture
sampled at the unmodified `uv`, for every `uv`, length function and texture. -/
theorem fragmentShader_stationary_mouse_identity {Color : Type}
    (len : Vec2 → ℚ) (tex : Vec2 → Color) (u_mouse u_prevMouse uv : Vec2)
    (h : u_mouse = u_prevMouse) :
    spec_offset len uv u_mouse u_prevMouse = ⟨0, 0⟩ ∧
      fragmentShader len tex u_mouse u_prevMouse uv = tex uv := by
  subst h
  constructor
  · simp [spec_offset, spec_strength, Vec2.mulScalar, Vec2.smul, Vec2.neg, Vec2.ext_iff]
  · simp [fragmentShader, Vec2.mulScalar, Vec2.smul, Vec2.neg]

/-- Witness for C10, at `uv = (1/4, 3/4)` and both mouse uniforms `(1/2, 1/2)`. -/
theorem fragmentShader_stationary_mouse_identity_witness :
    spec_offset (fun _ => 0) ⟨1/4, 3/4⟩ ⟨1/2, 1/2⟩ ⟨1/2, 1/2⟩ = ⟨0, 0⟩ ∧
      fragmentShader (fun _ => 0) (fun v : Vec2 => v) ⟨1/2, 1/2⟩ ⟨1/2, 1/2⟩ ⟨1/4, 3/4⟩ =
        ⟨1/4, 3/4⟩ :=
  fragmentShader_stationary_mouse_identity (fun _ => 0) (fun v : Vec2 => v)
    ⟨1/2, 1/2⟩ ⟨1/2, 1/2⟩ ⟨1/4, 3/4⟩ rfl

/-- C2: After move to normalized (0.2, 0.3), move to (0.5, 0.5), leave — from
a fresh instance — the target equals (0.2, 0.3); and in general `handleMouseLeave`
sets the target to the recorded previous position and the ease factor to 0.01. -/
theorem mouseLeave_restores_previous_position :
    (handleMouseLeave
        (handleMouseMove (handleMouseMove initState rect01 (2/10) (3/10))
          rect01 (1/2) (1/2))).targetMousePosition = ⟨2/10, 3/10⟩ ∧
    (handleMouseLeave
        (handleMouseMove (handleMouseMove initState rect01 (2/10) (3/10))
          rect01 (1/2) (1/2))).easeFactor = 1/100 ∧
    (∀ s : EffectState, (handleMouseLeave s).targetMousePosition = s.prevPosition) ∧
    (∀ s : EffectState, (handleMouseLeave s).easeFactor = 1/100) :=
  ⟨by norm_num [handleMouseLeave, handleMouseMove, initState, rect01, Vec2.ext_iff],
   rfl, fun _ => rfl, fun _ => rfl⟩

/-- C3: Immediately after `handleMouseEnter` at an event position with
normalized surface coordinate `(x, y)`, both the current and the target
position equal `(x, y)` and the ease factor equals 0.01, for every prior state. -/
theorem mouseEnter_snaps_current_and_target (s : EffectState) (rect : Rect)
    (clientX clientY : ℚ) :
    (handleMouseEnter s rect clientX clientY).mousePosition =
        ⟨(clientX - rect.left) / rect.width, (clientY - rect.top) / rect.height⟩ ∧
    (handleMouseEnter s rect clientX clientY).targetMousePosition =
        ⟨(clientX - rect.left) / rect.width, (clientY - rect.top) / rect.height⟩ ∧
    (handleMouseEnter s rect clientX clientY).easeFactor = 1/100 :=
  ⟨rfl, rfl, rfl⟩

/-- C4: On an animation tick, each axis of the current position is updated by
`current += (target - current) * easeFactor`; the mouse uniforms are then
written as `(current.x, 1 - current.y)` (with the updated current) and
`(previous.x, 1 - previous.y)`; and the ease factor, target and previous
position are unchanged. -/
theorem animateTick_eases_and_flips_y (s : EffectState) :
    (animateTick s).1.mousePosition.x =
        s.mousePosition.x + (s.targetMousePosition.x - s.mousePosition.x) * s.easeFactor ∧
    (animateTick s).1.mousePosition.y =
        s.mousePosition.y + (s.targetMousePosition.y - s.mousePosition.y) * s.easeFactor ∧
    (animateTick s).2.u_mouse =
        ⟨(animateTick s).1.mousePosition.x, 1 - (animateTick s).1.mousePosition.y⟩ ∧
    (animateTick s).2.u_prevMouse = ⟨s.prevPosition.x, 1 - s.prevPosition.y⟩ ∧
    (animateTick s).1.easeFactor = s.easeFactor ∧
    (animateTick s).1.targetMousePosition = s.targetMousePosition ∧
    (animateTick s).1.prevPosition = s.prevPosition :=
  ⟨rfl, rfl, rfl, rfl, rfl, rfl, rfl⟩

theorem clamp01_nonneg (x : ℚ) : 0 ≤ clamp x 0 1 :=
  le_min (le_max_right x 0) (by norm_num)

theorem clamp01_le_one (x : ℚ) : clamp x 0 1 ≤ 1 := min_le_right _ _

theorem clamp01_mono {a b : ℚ} (h : a ≤ b) : clamp a 0 1 ≤ clamp b 0 1 :=
  min_le_min (max_le_max h le_rfl) le_rfl

theorem hermite_mono {t1 t2 : ℚ} (h0 : 0 ≤ t1) (h12 : t1 ≤ t2) (h1 : t2 ≤ 1) :
    t1 * t1 * (3 - 2 * t1) ≤ t2 * t2 * (3 - 2 * t2) := by
  nlinarith [sq_nonneg (t2 - t1), sq_nonneg (t2 + t1),
    mul_nonneg (sub_nonneg.mpr h12) (sub_nonneg.mpr h1),
    mul_nonneg h0 (sub_nonneg.mpr h1),
    mul_nonneg (mul_nonneg (sub_nonneg.mpr h12) (sub_nonneg.mpr h1)) h0]

theorem smoothstep_arg_eq (x : ℚ) : (x - 3/10) / (0 - 3/10) = 1 - (10/3) * x := by
  rw [div_eq_iff (by norm_num : (0 : ℚ) - 3/10 ≠ 0)]
  ring

theorem smoothstep_strength_antitone {d1 d2 : ℚ} (h12 : d1 ≤ d2) :
    smoothstep (3/10) 0 d2 ≤ smoothstep (3/10) 0 d1 := by
  unfold smoothstep
  rw [smoothstep_arg_eq, smoothstep_arg_eq]
  exact hermite_mono (clamp01_nonneg _) (clamp01_mono (by linarith)) (clamp01_le_one _)

end PixelatedTitleCard

namespace PixelatedTitleCard

/-- C5: The distortion strength `smoothstep(0.3, 0.0, dist)` is monotonically
non-increasing in `dist` on `dist ≥ 0`, takes its maximum value 1 at
`dist = 0`, and is exactly 0 for every `dist ≥ 0.3`. -/
theorem strength_antitone_max_at_zero_vanishes_beyond_radius :
    (∀ d1 d2 : ℚ, 0 ≤ d1 → d1 ≤ d2 →
      smoothstep (3/10) 0 d2 ≤ smoothstep (3/10) 0 d1) ∧
    (smoothstep (3/10) 0 0 = 1 ∧
      ∀ d : ℚ, 0 ≤ d → smoothstep (3/10) 0 d ≤ smoothstep (3/10) 0 0) ∧
    (∀ d : ℚ, 3/10 ≤ d → smoothstep (3/10) 0 d = 0) := by
  refine ⟨fun d1 d2 _ h12 => smoothstep_strength_antitone h12,
    ⟨by norm_num [smoothstep, clamp], fun d hd => smoothstep_strength_antitone hd⟩,
    fun d hd => ?_⟩
  unfold smoothstep
  rw [smoothstep_arg_eq]
  have hmax : max (1 - (10/3) * d) 0 = 0 := max_eq_right (by linarith)
  have : clamp (1 - (10/3) * d) 0 1 = 0 := by
    rw [clamp, hmax]
    norm_num
  rw [this]
  ring

/-- Witness for C5: the three parts evaluated at 0.1 ≤ 0.5, at 0.1 ≥ 0 and at 0.4 ≥ 0.3. -/
theorem strength_antitone_max_at_zero_vanishes_beyond_radius_witness :
    smoothstep (3/10) 0 (1/2) ≤ smoothstep (3/10) 0 (1/10) ∧
    smoothstep (3/10) 0 (1/10) ≤ smoothstep (3/10) 0 0 ∧
    smoothstep (3/10) 0 (2/5) = 0 :=
  ⟨strength_antitone_max_at_zero_vanishes_beyond_radius.1 (1/10) (1/2) (by norm_num)
      (by norm_num),
   strength_antitone_max_at_zero_vanishes_beyond_radius.2.1.2 (1/10) (by norm_num),
   strength_antitone_max_at_zero_vanishes_beyond_radius.2.2 (2/5) (by norm_num)⟩

/-- C6: For positive measured text width, `scaleFactor` equals
`min(1, bitmapWidth / measuredTextWidth)`, hence is at most 1, and the
vertical scale applied in the transform is
`scaleFactor / (bitmapWidth / bitmapHeight)`. -/
theorem scaleFactor_never_upscales (innerW innerH textW : ℚ) (h : 0 < textW) :
    (createTextTexture innerW innerH textW).scaleFactor =
      min 1 ((createTextTexture innerW innerH textW).canvasWidth / textW) ∧
    (createTextTexture innerW innerH textW).scaleFactor ≤ 1 ∧
    (createTextTexture innerW innerH textW).verticalScale =
      (createTextTexture innerW innerH textW).scaleFactor /
        ((createTextTexture innerW innerH textW).canvasWidth /
          (createTextTexture innerW innerH textW).canvasHeight) :=
  ⟨by simp [createTextTexture], min_le_left _ _, rfl⟩

/-- Witness for C6, at viewport 800×600 and measured text width 4000. -/
theorem scaleFactor_never_upscales_witness :
    (createTextTexture 800 600 4000).scaleFactor =
      min 1 ((createTextTexture 800 600 4000).canvasWidth / 4000) ∧
    (createTextTexture 800 600 4000).scaleFactor ≤ 1 ∧
    (createTextTexture 800 600 4000).verticalScale =
      (createTextTexture 800 600 4000).scaleFactor /
        ((createTextTexture 800 600 4000).canvasWidth /
          (createTextTexture 800 600 4000).canvasHeight) :=
  scaleFactor_never_upscales 800 600 4000 (by norm_num)

/-- C7: For every viewport size, the resize handler's trace performs exactly
one texture regeneration — whose bitmap is `2×` the viewport in each
dimension — and exactly one projection-bounds update; concretely, viewport
800×600 regenerates a 1600×1200 bitmap. -/
theorem resize_regenerates_once (w h : ℚ) :
    (onWindowResize w h).filter isRegenerate =
      [ResizeAction.regenerateTexture (w * 2) (h * 2)] ∧
    (onWindowResize w h).countP isProjectionUpdate = 1 ∧
    (onWindowResize 800 600).filter isRegenerate =
      [ResizeAction.regenerateTexture 1600 1200] := by
  refine ⟨rfl, rfl, ?_⟩
  rw [show (onWindowResize 800 600).filter isRegenerate =
      [ResizeAction.regenerateTexture (800 * 2) (600 * 2)] from rfl]
  norm_num

/-- C8: The destroy trace starts by cancelling the scheduled frame callback,
removes each of the four listeners registered by `addEventListeners`
(mousemove, mouseenter, mouseleave, resize), removes the renderer's canvas
from the container, and disposes the renderer. -/
theorem destroy_releases_all_resources :
    destroy.head? = some DestroyAction.cancelFrame ∧
    addEventListeners = [ListenerKind.mousemove, ListenerKind.mouseenter,
      ListenerKind.mouseleave, ListenerKind.resize] ∧
    DestroyAction.removeListener ListenerKind.mousemove ∈ destroy ∧
    DestroyAction.removeListener ListenerKind.mouseenter ∈ destroy ∧
    DestroyAction.removeListener ListenerKind.mouseleave ∈ destroy ∧
    DestroyAction.removeListener ListenerKind.resize ∈ destroy ∧
    DestroyAction.removeChildCanvas ∈ destroy ∧
    DestroyAction.disposeRenderer ∈ destroy := by
  decide

/-- C9: If the selector matches no element, `applyPixelatedTextTo` returns no
handle, mutates no element, and logs exactly the warning; if it matches an
element, it returns a handle whose container is the newly inserted
`pixelated-overlay` appended to the element's children. -/
theorem applyPixelatedTextTo_missing_and_found (doc : String → Option DomElement)
    (selector : String) (opts : EffectOptions) :
    (doc selector = none →
      applyPixelatedTextTo doc selector opts =
        (none, none, ["Element not found for selector: " ++ selector])) ∧
    (∀ el : DomElement, doc selector = some el →
      ∃ eff el2, applyPixelatedTextTo doc selector opts = (some eff, some el2, []) ∧
        eff.container ∈ el2.children ∧
        eff.container.className = "pixelated-overlay") := by
  constructor
  · intro hnone
    unfold applyPixelatedTextTo
    rw [hnone]
  · intro el hel
    unfold applyPixelatedTextTo
    rw [hel]
    exact ⟨_, _, rfl, List.mem_append_right _ (List.mem_singleton_self _), rfl⟩

/-- Witness for C9: a document with no match for `#missing`, and a document
whose `#title` element has text `" zayno "` and static positioning. -/
theorem applyPixelatedTextTo_missing_and_found_witness :
    applyPixelatedTextTo (fun _ => none) "#missing" ⟨none, none, none, none⟩ =
      (none, none, ["Element not found for selector: " ++ "#missing"]) ∧
    ∃ eff el2,
      applyPixelatedTextTo (fun _ => some ⟨" zayno ", "static", []⟩) "#title"
          ⟨none, none, none, none⟩ = (some eff, some el2, []) ∧
        eff.container ∈ el2.children ∧
        eff.container.className = "pixelated-overlay" :=
  ⟨(applyPixelatedTextTo_missing_and_found (fun _ => none) "#missing"
      ⟨none, none, none, none⟩).1 rfl,
   (applyPixelatedTextTo_missing_and_found (fun _ => some ⟨" zayno ", "static", []⟩)
      "#title" ⟨none, none, none, none⟩).2 ⟨" zayno ", "static", []⟩ rfl⟩

end PixelatedTitleCard
